import Mathlib

/-!
Shallow embedding of the readiness-polling utilities of the
k8s_observebility repository (Rust sources under scripts/): the
`run_command` shell wrapper, the bounded readiness-wait loops of
`setup_kind_cluster.rs`, `deploy_argocd.rs`,
`deploy_observability_stack.rs` and `k8s_obs.rs`, and the guarded
cleanup workflow of `cleanup.rs`.  Text is modelled as `List Char`
(converted from string literals with `String.toList`) so that every
definition evaluates by kernel reduction.
-/

/-- Raw text handled by the scripts, as a list of characters. -/
abbrev Chars := List Char

/-- ASCII whitespace, the characters stripped by Rust `str::trim` in the
outputs handled here. -/
def isWhitespaceCh (c : Char) : Bool :=
  c = ' ' || c = '\n' || c = '\t' || c = '\r'

/-- Model of Rust `str::trim`: strip whitespace from both ends. -/
def trimChars (l : Chars) : Chars :=
  ((l.dropWhile isWhitespaceCh).reverse.dropWhile isWhitespaceCh).reverse

/-- Model of Rust `str::split('\n')` collected to a vector: split on every
newline, keeping empty pieces; an empty input yields one empty piece. -/
def splitNl : Chars → List Chars
  | [] => [[]]
  | c :: cs =>
    if c = '\n' then [] :: splitNl cs
    else
      match splitNl cs with
      | [] => [[c]]
      | piece :: rest => (c :: piece) :: rest

/-- Boolean list-prefix test used by `containsSub`. -/
def isPrefixCh : Chars → Chars → Bool
  | [], _ => true
  | _ :: _, [] => false
  | p :: ps, c :: cs => p = c && isPrefixCh ps cs

/-- Model of Rust `str::contains(pat)`: substring containment. -/
def containsSub : Chars → Chars → Bool
  | [], pat => isPrefixCh pat []
  | c :: cs, pat => isPrefixCh pat (c :: cs) || containsSub cs pat

/-- Outcome of one invocation of the external shell wrapper: either the
child process ran (with an exit-status flag and captured stdout) or it
could not be spawned at all. -/
inductive CmdResult where
  | ok (success : Bool) (stdout : String)
  | spawnErr
deriving DecidableEq, Repr

/-- Model of the scripts' `run_command(command, check)` (the same logic in
setup_kind_cluster.rs lines 85-108, deploy_argocd.rs lines 39-58,
deploy_observability_stack.rs lines 41-60 and cleanup.rs lines 43-59):
a spawn failure is an error; otherwise, with `check = true` a non-zero
exit status becomes an error, and with `check = false` the captured
output is returned regardless of the exit status. -/
def run_command (spawn : CmdResult) (check : Bool) : Except Unit (Bool × String) :=
  match spawn with
  | .spawnErr => .error ()
  | .ok success stdout =>
    if check && !success then .error () else .ok (success, stdout)

/-- The trimmed stdout split into lines, as computed by
`output_str.trim().split('\n').collect()` at the poll sites. -/
def outputLines (stdout : String) : List Chars :=
  splitNl (trimChars stdout.toList)

/-- Readiness predicate of `KindClusterSetup::verify_cluster_setup`
(setup_kind_cluster.rs lines 283-308): at least 3 node lines, of which at
least 3 contain "Ready". -/
def nodesReady (stdout : String) : Bool :=
  if 3 ≤ (outputLines stdout).length then
    decide (3 ≤ ((outputLines stdout).filter
      (fun n => containsSub n "Ready".toList)).length)
  else false

/-- Readiness predicate of `ArgoCDDeployer::install_argocd`
(deploy_argocd.rs lines 162-176): at least 5 pod lines, of which at least
5 contain "Running" or "Completed". -/
def argocdPodsReady (stdout : String) : Bool :=
  if 5 ≤ (outputLines stdout).length then
    decide (5 ≤ ((outputLines stdout).filter
      (fun p => containsSub p "Running".toList || containsSub p "Completed".toList)).length)
  else false

/-- Readiness predicate of `ObservabilityStackDeployer::deploy_sample_apps`
(deploy_observability_stack.rs lines 236-249): a non-empty line list in
which every line contains "Running". -/
def samplePodsReady (stdout : String) : Bool :=
  if (outputLines stdout).isEmpty then false
  else
    decide (((outputLines stdout).filter
      (fun p => containsSub p "Running".toList)).length = (outputLines stdout).length)

/-- Terminal outcome of a bounded readiness wait. -/
inductive PollResult where
  | ready
  | timedOut
deriving DecidableEq, Repr

/-- Observable trace of one readiness wait: the terminal outcome, the number
of check invocations performed and the number of sleeps performed. -/
structure LoopTrace where
  result : PollResult
  invocations : Nat
  sleeps : Nat
deriving DecidableEq, Repr

/-- The common readiness-wait loop of `verify_cluster_setup`
(setup_kind_cluster.rs lines 277-320), `install_argocd` (deploy_argocd.rs
lines 158-184) and `deploy_sample_apps` (deploy_observability_stack.rs
lines 231-257): `while attempt < max_attempts`, invoke the check; if it
produced output satisfying `isReady`, stop as ready at once; otherwise —
including when the check could not be spawned — increment the counter,
sleep, and retry.  `fuel` stands for `max_attempts - attempt`, and
`attempt` indexes the pre-determined check results. -/
def retryWaitLoop (isReady : String → Bool) (checks : Nat → CmdResult)
    (attempt : Nat) : Nat → LoopTrace
  | 0 => ⟨.timedOut, 0, 0⟩
  | fuel + 1 =>
    match checks attempt with
    | .ok _ out =>
      if isReady out then ⟨.ready, 1, 0⟩
      else
        let t := retryWaitLoop isReady checks (attempt + 1) fuel
        ⟨t.result, t.invocations + 1, t.sleeps + 1⟩
    | .spawnErr =>
      let t := retryWaitLoop isReady checks (attempt + 1) fuel
      ⟨t.result, t.invocations + 1, t.sleeps + 1⟩

/-- The node wait of `verify_cluster_setup` with its budget of 30 attempts. -/
def verify_cluster_wait (checks : Nat → CmdResult) : LoopTrace :=
  retryWaitLoop nodesReady checks 0 30

/-- The ArgoCD pod wait of `install_argocd` with its budget of 30 attempts. -/
def argocd_wait (checks : Nat → CmdResult) : LoopTrace :=
  retryWaitLoop argocdPodsReady checks 0 30

/-- The sample-app pod wait of `deploy_sample_apps` with its budget of 30
attempts. -/
def sample_apps_wait (checks : Nat → CmdResult) : LoopTrace :=
  retryWaitLoop samplePodsReady checks 0 30

/-- The CRD wait of `deploy_argocd_apps` (deploy_observability_stack.rs
lines 185-205): `while attempt < max_attempts`, invoke the check with
`check = false`; an Ok spawn — regardless of the exit status — breaks the
loop as ready; on a spawn failure increment the counter and sleep only if
attempts remain, otherwise return the timeout error without sleeping.
The `fuel = 0` base case is the loop condition failing before entry, which
falls through to `Ok(())`. -/
def crdWaitLoop (checks : Nat → CmdResult) (attempt : Nat) : Nat → LoopTrace
  | 0 => ⟨.ready, 0, 0⟩
  | fuel + 1 =>
    match checks attempt with
    | .ok _ _ => ⟨.ready, 1, 0⟩
    | .spawnErr =>
      match fuel with
      | 0 => ⟨.timedOut, 1, 0⟩
      | f + 1 =>
        let t := crdWaitLoop checks (attempt + 1) (f + 1)
        ⟨t.result, t.invocations + 1, t.sleeps + 1⟩

/-- The CRD wait with its budget of 60 attempts. -/
def crd_wait (checks : Nat → CmdResult) : LoopTrace :=
  crdWaitLoop checks 0 60

/-- Per-iteration readiness of the Traefik wait (k8s_obs.rs lines 270-277):
the check spawned, exited successfully, and its stdout contains "Running". -/
def traefikIterReady : CmdResult → Bool
  | .ok true out => containsSub out.toList "Running".toList
  | .ok false _ => false
  | .spawnErr => false

/-- The Traefik wait of `deploy_stack` (k8s_obs.rs lines 263-283): each
iteration sleeps first, then checks; break when ready, else increment the
counter; after 60 iterations the loop falls through without escalation. -/
def traefikWaitLoop (checks : Nat → CmdResult) (attempts : Nat) : Nat → LoopTrace
  | 0 => ⟨.timedOut, 0, 0⟩
  | fuel + 1 =>
    if traefikIterReady (checks attempts) then ⟨.ready, 1, 1⟩
    else
      let t := traefikWaitLoop checks (attempts + 1) fuel
      ⟨t.result, t.invocations + 1, t.sleeps + 1⟩

/-- The Traefik wait with its budget of 60 iterations. -/
def traefik_wait (checks : Nat → CmdResult) : LoopTrace :=
  traefikWaitLoop checks 0 60

/-- `KindClusterSetup::verify_cluster_setup` (setup_kind_cluster.rs lines
271-326) from the kubeconfig export on: a spawn failure of the export
propagates (`?`); then the node wait runs; on ready the confirming
`kubectl get nodes` with `check = true` can still fail; on timeout the
final status dump is ignored (`let _`) and `Ok(false)` is returned. -/
def verify_cluster_setup (exportKc confirm : CmdResult)
    (checks : Nat → CmdResult) : Except Unit Bool :=
  match run_command exportKc false with
  | .error e => .error e
  | .ok _ =>
    match (verify_cluster_wait checks).result with
    | .ready =>
      match run_command confirm true with
      | .error e => .error e
      | .ok _ => .ok true
    | .timedOut => .ok false

/-- `ensure_kind_context` (deploy_argocd.rs lines 60-100 and the identical
copy in deploy_observability_stack.rs): the cluster list must mention
"observability-cluster", the export and set-cluster commands propagate
spawn failures, and cluster-info is tried twice before giving up. -/
def ensure_kind_context (kindGet exportKc setCluster clusterInfo clusterInfoCtx :
    CmdResult) : Except Unit Unit :=
  match run_command kindGet false with
  | .error _ => .error ()
  | .ok (_, clusters) =>
    if containsSub clusters.toList "observability-cluster".toList then
      match run_command exportKc false with
      | .error e => .error e
      | .ok _ =>
        match run_command setCluster false with
        | .error e => .error e
        | .ok _ =>
          match run_command clusterInfo false with
          | .ok _ => .ok ()
          | .error _ =>
            match run_command clusterInfoCtx false with
            | .ok _ => .ok ()
            | .error _ => .error ()
    else .error ()

/-- The pre-determined external-command results that `install_argocd`
consumes, in program order, plus the pod-status check sequence of its wait. -/
structure ArgoEnv where
  kindGet : CmdResult
  exportKc : CmdResult
  setCluster : CmdResult
  clusterInfo : CmdResult
  clusterInfoCtx : CmdResult
  helmRepoAdd : CmdResult
  helmRepoUpdate : CmdResult
  helmInstall : CmdResult
  checks : Nat → CmdResult

/-- `ArgoCDDeployer::install_argocd` (deploy_argocd.rs lines 139-188): the
context setup and the three helm commands (`check = true`) propagate
failure; then the pod readiness wait runs, and the function prints success
and returns `Ok(())` whatever the wait's outcome was. -/
def install_argocd (e : ArgoEnv) : Except Unit Unit :=
  match ensure_kind_context e.kindGet e.exportKc e.setCluster e.clusterInfo
      e.clusterInfoCtx with
  | .error u => .error u
  | .ok _ =>
    match run_command e.helmRepoAdd true with
    | .error u => .error u
    | .ok _ =>
      match run_command e.helmRepoUpdate true with
      | .error u => .error u
      | .ok _ =>
        match run_command e.helmInstall true with
        | .error u => .error u
        | .ok _ =>
          let _ := argocd_wait e.checks
          .ok ()

/-- The pre-determined external-command results `deploy_argocd_apps`
consumes, plus the CRD check sequence of its wait. -/
structure StackEnv where
  nsCreate : CmdResult
  kustomize : CmdResult
  crdChecks : Nat → CmdResult

/-- `ObservabilityStackDeployer::deploy_argocd_apps`
(deploy_observability_stack.rs lines 147-208): the namespace creation
propagates a spawn failure (`?`), the kustomize apply with `check = true`
propagates failure, the application-status query result is only printed,
and exhaustion of the CRD wait is returned as an error. -/
def deploy_argocd_apps (e : StackEnv) : Except Unit Unit :=
  match run_command e.nsCreate false with
  | .error u => .error u
  | .ok _ =>
    match run_command e.kustomize true with
    | .error u => .error u
    | .ok _ =>
      match (crd_wait e.crdChecks).result with
      | .ready => .ok ()
      | .timedOut => .error ()

/-- The pre-determined external-command results `deploy_sample_apps`
consumes, plus the pod check sequence of its wait. -/
structure SampleEnv where
  nsCreate : CmdResult
  applyApps : CmdResult
  checks : Nat → CmdResult

/-- `ObservabilityStackDeployer::deploy_sample_apps`
(deploy_observability_stack.rs lines 210-259): the namespace creation and
the apply (`check = true`) propagate failure; the readiness wait's outcome
is discarded and `Ok(())` is returned. -/
def deploy_sample_apps (e : SampleEnv) : Except Unit Unit :=
  match run_command e.nsCreate false with
  | .error u => .error u
  | .ok _ =>
    match run_command e.applyApps true with
    | .error u => .error u
    | .ok _ =>
      let _ := sample_apps_wait e.checks
      .ok ()

/-- Tail of `KindClusterSetup::setup` (setup_kind_cluster.rs lines 431-462)
after cluster creation: a verification error propagates (`?`), a false
verification yields `Ok(false)`, and on success the helm installation
(which can fail) precedes `Ok(true)`; the final `kubectl get nodes` result
only affects printing. -/
def setup_finish (verifyRes : Except Unit Bool) (installHelm : Except Unit Unit) :
    Except Unit Bool :=
  match verifyRes with
  | .error e => .error e
  | .ok false => .ok false
  | .ok true =>
    match installHelm with
    | .error e => .error e
    | .ok _ => .ok true

/-- `main` of setup_kind_cluster.rs (lines 466-479): an error from `setup`
and a false result both end the process with a non-zero exit code
(`std::process::exit(1)` / anyhow error); only `Ok(true)` exits 0. -/
def setup_main_exit_code (setupRes : Except Unit Bool) : Nat :=
  match setupRes with
  | .error _ => 1
  | .ok true => 0
  | .ok false => 1

/-- Model of Rust `str::to_lowercase` over the ASCII inputs involved. -/
def lowerChars (l : Chars) : Chars := l.map Char.toLower

/-- The interactive guard of `Cleanup::cleanup` (cleanup.rs line 141): the
line read from stdin, trimmed and lowercased, must equal "y". -/
def cleanupConfirmed (input : String) : Bool :=
  decide (lowerChars (trimChars input.toList) = "y".toList)

/-- Which of the local artefacts cleanup.rs consults actually exist. -/
structure FsState where
  helmZipExists : Bool
  kindConfigExists : Bool
  helmDirExists : Bool
deriving DecidableEq, Repr

/-- Whether removing each local artefact would succeed. -/
structure FsRemoveOk where
  helmZip : Bool
  kindConfig : Bool
  helmDir : Bool
deriving DecidableEq, Repr

/-- One step of `remove_local_files`: remove `path` when it exists,
recording the removal, or fail when the removal fails. -/
def removeOne (path : String) (present ok : Bool) :
    List String × Except Unit Unit :=
  if present then
    if ok then ([path], .ok ()) else ([], .error ())
  else ([], .ok ())

/-- Sequence two removal steps, aborting at the first failure (`?` in the
source). -/
def seqRemove (a b : List String × Except Unit Unit) :
    List String × Except Unit Unit :=
  match a with
  | (done, .ok _) => (done ++ b.1, b.2)
  | (done, .error e) => (done, .error e)

/-- `Cleanup::remove_local_files` (cleanup.rs lines 113-131): remove
./helm.zip and ./kind-config.yaml if present, then the ./helm directory,
propagating the first failure. -/
def remove_local_files (fs : FsState) (ok : FsRemoveOk) :
    List String × Except Unit Unit :=
  seqRemove
    (seqRemove (removeOne "./helm.zip" fs.helmZipExists ok.helmZip)
      (removeOne "./kind-config.yaml" fs.kindConfigExists ok.kindConfig))
    (removeOne "./helm" fs.helmDirExists ok.helmDir)

/-- The external commands `Cleanup::cleanup` runs when confirmed, in program
order (cleanup.rs lines 61-111): the kubeconfig exports and cluster-server
edits, the helm uninstalls, the namespace deletion, the kind cluster
deletion and the kubectl config removals.  All run with `check = false`
and their results are ignored. -/
def cleanup_commands (clusterName ns : String) : List String :=
  [ "kind export kubeconfig --name " ++ clusterName
  , "kubectl config set-cluster kind-" ++ clusterName ++ " --server=https://127.0.0.1:6443"
  , "helm uninstall prometheus -n " ++ ns
  , "helm uninstall grafana -n " ++ ns
  , "helm uninstall opentelemetry -n " ++ ns
  , "kind export kubeconfig --name " ++ clusterName
  , "kubectl config set-cluster kind-" ++ clusterName ++ " --server=https://127.0.0.1:6443"
  , "kubectl delete namespace " ++ ns ++ " --ignore-not-found=true"
  , "kind delete cluster --name " ++ clusterName
  , "kubectl config delete-context kind-" ++ clusterName
  , "kubectl config delete-cluster kind-" ++ clusterName
  , "kubectl config delete-user kind-" ++ clusterName ]

/-- `Cleanup::cleanup` (cleanup.rs lines 133-155): unless the trimmed,
lowercased stdin line equals "y" it cancels — running no external command
and removing no file — and returns `Ok(())`; otherwise it runs the
uninstall/delete commands and removes the local files, propagating only a
file-removal failure.  Returns (commands run, files removed, result). -/
def cleanup_run (clusterName ns input : String) (fs : FsState)
    (ok : FsRemoveOk) : List String × List String × Except Unit Unit :=
  if cleanupConfirmed input then
    let r := remove_local_files fs ok
    (cleanup_commands clusterName ns, r.1, r.2)
  else ([], [], .ok ())

/-- Whether one check result passes the per-attempt readiness test of
`retryWaitLoop`: an Ok spawn whose output satisfies the predicate.  A
spawn failure never does. -/
def readyStep (p : String → Bool) : CmdResult → Bool
  | .ok _ out => p out
  | .spawnErr => false

lemma retryWaitLoop_never_ready (p : String → Bool) (checks : Nat → CmdResult)
    (h : ∀ i, readyStep p (checks i) = false) :
    ∀ fuel a, retryWaitLoop p checks a fuel = ⟨.timedOut, fuel, fuel⟩ := by
  intro fuel
  induction fuel with
  | zero => intro a; rfl
  | succ f ih =>
    intro a
    have ha := h a
    cases hc : checks a with
    | ok b out =>
      rw [hc] at ha
      simp only [readyStep] at ha
      simp [retryWaitLoop, hc, ha, ih]
    | spawnErr =>
      simp [retryWaitLoop, hc, ih]

lemma crdWaitLoop_all_spawnErr (checks : Nat → CmdResult)
    (h : ∀ i, checks i = CmdResult.spawnErr) :
    ∀ fuel a, 0 < fuel → crdWaitLoop checks a fuel = ⟨.timedOut, fuel, fuel - 1⟩ := by
  intro fuel
  induction fuel with
  | zero => intro a h0; omega
  | succ f ih =>
    intro a _
    cases f with
    | zero => simp [crdWaitLoop, h a]
    | succ g =>
      have hrec := ih (a + 1) (Nat.succ_pos g)
      simp [crdWaitLoop, h a, hrec]

lemma retryWaitLoop_invocations_le (p : String → Bool) (checks : Nat → CmdResult) :
    ∀ fuel a, (retryWaitLoop p checks a fuel).invocations ≤ fuel := by
  intro fuel
  induction fuel with
  | zero => intro a; exact Nat.le_refl 0
  | succ f ih =>
    intro a
    have hrec := ih (a + 1)
    cases hc : checks a with
    | ok b out =>
      cases hp : p out with
      | true => simp [retryWaitLoop, hc, hp]
      | false =>
        simp only [retryWaitLoop, hc, hp]
        simp only [Bool.false_eq_true, if_false]
        omega
    | spawnErr =>
      simp only [retryWaitLoop, hc]
      omega

lemma crdWaitLoop_invocations_le (checks : Nat → CmdResult) :
    ∀ fuel a, (crdWaitLoop checks a fuel).invocations ≤ fuel := by
  intro fuel
  induction fuel with
  | zero => intro a; exact Nat.le_refl 0
  | succ f ih =>
    intro a
    cases hc : checks a with
    | ok b out =>
      cases f with
      | zero => simp [crdWaitLoop, hc]
      | succ g => simp [crdWaitLoop, hc]
    | spawnErr =>
      cases f with
      | zero => simp [crdWaitLoop, hc]
      | succ g =>
        have hrec := ih (a + 1)
        simp only [crdWaitLoop, hc]
        omega

lemma traefikWaitLoop_invocations_le (checks : Nat → CmdResult) :
    ∀ fuel a, (traefikWaitLoop checks a fuel).invocations ≤ fuel := by
  intro fuel
  induction fuel with
  | zero => intro a; exact Nat.le_refl 0
  | succ f ih =>
    intro a
    have hrec := ih (a + 1)
    cases hr : traefikIterReady (checks a) with
    | true => simp [traefikWaitLoop, hr]
    | false =>
      simp only [traefikWaitLoop, hr]
      simp only [Bool.false_eq_true, if_false]
      omega

lemma retryWaitLoop_one_le (p : String → Bool) (checks : Nat → CmdResult)
    (a fuel : Nat) (h : 0 < fuel) :
    1 ≤ (retryWaitLoop p checks a fuel).invocations := by
  cases fuel with
  | zero => omega
  | succ f =>
    cases hc : checks a with
    | ok b out =>
      cases hp : p out with
      | true => simp [retryWaitLoop, hc, hp]
      | false =>
        simp only [retryWaitLoop, hc, hp]
        simp only [Bool.false_eq_true, if_false]
        omega
    | spawnErr =>
      simp only [retryWaitLoop, hc]
      omega

lemma crdWaitLoop_one_le (checks : Nat → CmdResult)
    (a fuel : Nat) (h : 0 < fuel) :
    1 ≤ (crdWaitLoop checks a fuel).invocations := by
  cases fuel with
  | zero => omega
  | succ f =>
    cases hc : checks a with
    | ok b out =>
      cases f with
      | zero => simp [crdWaitLoop, hc]
      | succ g => simp [crdWaitLoop, hc]
    | spawnErr =>
      cases f with
      | zero => simp [crdWaitLoop, hc]
      | succ g =>
        simp only [crdWaitLoop, hc]
        omega

lemma retryWaitLoop_first_ready (p : String → Bool) (checks : Nat → CmdResult) :
    ∀ m a fuel, m < fuel →
      (∀ i, i < m → readyStep p (checks (a + i)) = false) →
      readyStep p (checks (a + m)) = true →
      retryWaitLoop p checks a fuel = ⟨.ready, m + 1, m⟩ := by
  intro m
  induction m with
  | zero =>
    intro a fuel hf _ h2
    cases fuel with
    | zero => omega
    | succ f =>
      rw [Nat.add_zero] at h2
      cases hc : checks a with
      | ok b out =>
        rw [hc] at h2
        simp only [readyStep] at h2
        simp [retryWaitLoop, hc, h2]
      | spawnErr =>
        rw [hc] at h2
        simp [readyStep] at h2
  | succ m' ih =>
    intro a fuel hf h1 h2
    cases fuel with
    | zero => omega
    | succ f =>
      have h0 : readyStep p (checks a) = false := by
        have := h1 0 (Nat.succ_pos m')
        rwa [Nat.add_zero] at this
      have hrec : retryWaitLoop p checks (a + 1) f = ⟨.ready, m' + 1, m'⟩ := by
        apply ih (a + 1) f (by omega)
        · intro i hi
          have := h1 (i + 1) (by omega)
          rwa [show a + (i + 1) = a + 1 + i by omega] at this
        · rwa [show a + (m' + 1) = a + 1 + m' by omega] at h2
      cases hc : checks a with
      | ok b out =>
        rw [hc] at h0
        simp only [readyStep] at h0
        simp [retryWaitLoop, hc, h0, hrec]
      | spawnErr =>
        simp [retryWaitLoop, hc, hrec]

lemma crdWaitLoop_first_ok (checks : Nat → CmdResult) :
    ∀ m a fuel, m < fuel →
      (∀ i, i < m → checks (a + i) = CmdResult.spawnErr) →
      (∃ b s, checks (a + m) = CmdResult.ok b s) →
      crdWaitLoop checks a fuel = ⟨.ready, m + 1, m⟩ := by
  intro m
  induction m with
  | zero =>
    intro a fuel hf _ h2
    cases fuel with
    | zero => omega
    | succ f =>
      obtain ⟨b, s, hb⟩ := h2
      rw [Nat.add_zero] at hb
      cases f with
      | zero => simp [crdWaitLoop, hb]
      | succ g => simp [crdWaitLoop, hb]
  | succ m' ih =>
    intro a fuel hf h1 h2
    cases fuel with
    | zero => omega
    | succ f =>
      have h0 : checks a = CmdResult.spawnErr := by
        have := h1 0 (Nat.succ_pos m')
        rwa [Nat.add_zero] at this
      cases f with
      | zero => omega
      | succ g =>
        have hrec : crdWaitLoop checks (a + 1) (g + 1) = ⟨.ready, m' + 1, m'⟩ := by
          apply ih (a + 1) (g + 1) (by omega)
          · intro i hi
            have := h1 (i + 1) (by omega)
            rwa [show a + (i + 1) = a + 1 + i by omega] at this
          · obtain ⟨b, s, hb⟩ := h2
            exact ⟨b, s, by rwa [show a + (m' + 1) = a + 1 + m' by omega] at hb⟩
        simp [crdWaitLoop, h0, hrec]

lemma trimChars_eq_nil (l : Chars) (h : ∀ c ∈ l, isWhitespaceCh c = true) :
    trimChars l = [] := by
  unfold trimChars
  have h1 : l.dropWhile isWhitespaceCh = [] := List.dropWhile_eq_nil_iff.mpr h
  rw [h1]
  rfl

/-- C1: for a readiness wait with attempt budget N whose readiness predicate
is never satisfied, the loop performs exactly N check invocations — never
more, never fewer — and terminates timed out; at the function level
`verify_cluster_setup` then returns false and `deploy_argocd_apps` returns
an error, not success. -/
theorem c1_timeout_performs_exactly_n_invocations
    (N : Nat) (checks₁ checks₂ : Nat → CmdResult)
    (exportKc confirm : CmdResult) (e : StackEnv)
    (hN : 0 < N)
    (h1 : ∀ i, readyStep nodesReady (checks₁ i) = false)
    (h2 : ∀ i, checks₂ i = CmdResult.spawnErr)
    (hex : exportKc ≠ CmdResult.spawnErr)
    (hns : e.nsCreate ≠ CmdResult.spawnErr)
    (hku : ∃ s, e.kustomize = CmdResult.ok true s)
    (hcrd : e.crdChecks = checks₂) :
    retryWaitLoop nodesReady checks₁ 0 N = ⟨PollResult.timedOut, N, N⟩ ∧
    crdWaitLoop checks₂ 0 N = ⟨PollResult.timedOut, N, N - 1⟩ ∧
    verify_cluster_setup exportKc confirm checks₁ = Except.ok false ∧
    deploy_argocd_apps e = Except.error () := by
  refine ⟨retryWaitLoop_never_ready _ _ h1 N 0,
    crdWaitLoop_all_spawnErr _ h2 N 0 hN, ?_, ?_⟩
  · have hw : verify_cluster_wait checks₁ = ⟨PollResult.timedOut, 30, 30⟩ :=
      retryWaitLoop_never_ready _ _ h1 30 0
    unfold verify_cluster_setup
    cases exportKc with
    | spawnErr => exact absurd rfl hex
    | ok b s => simp [run_command, hw]
  · obtain ⟨s, hs⟩ := hku
    have hw : crd_wait e.crdChecks = ⟨PollResult.timedOut, 60, 59⟩ := by
      rw [hcrd]
      exact crdWaitLoop_all_spawnErr _ h2 60 0 (by omega)
    unfold deploy_argocd_apps
    cases hnc : e.nsCreate with
    | spawnErr => exact absurd hnc hns
    | ok b t => simp [run_command, hs, hw]

/-- Witness for C1 at budget 1: a node check always reporting empty output
and a CRD check that never spawns. -/
theorem c1_timeout_performs_exactly_n_invocations_witness :
    retryWaitLoop nodesReady (fun _ => CmdResult.ok true "") 0 1 =
      ⟨PollResult.timedOut, 1, 1⟩ ∧
    crdWaitLoop (fun _ => CmdResult.spawnErr) 0 1 =
      ⟨PollResult.timedOut, 1, 0⟩ ∧
    verify_cluster_setup (CmdResult.ok true "") (CmdResult.ok true "")
      (fun _ => CmdResult.ok true "") = Except.ok false ∧
    deploy_argocd_apps
      ⟨CmdResult.ok true "", CmdResult.ok true "", fun _ => CmdResult.spawnErr⟩ =
      Except.error () :=
  c1_timeout_performs_exactly_n_invocations 1
    (fun _ => CmdResult.ok true "") (fun _ => CmdResult.spawnErr)
    (CmdResult.ok true "") (CmdResult.ok true "")
    ⟨CmdResult.ok true "", CmdResult.ok true "", fun _ => CmdResult.spawnErr⟩
    (by decide)
    (fun i => (by decide : readyStep nodesReady (CmdResult.ok true "") = false))
    (fun i => rfl)
    (by simp) (by simp) ⟨"", rfl⟩ rfl

/-- An environment for `install_argocd` in which every preparatory command
succeeds but the pod check always reports empty output, so its readiness
wait can only time out. -/
def argoEnvTimeout : ArgoEnv where
  kindGet := CmdResult.ok true "observability-cluster"
  exportKc := CmdResult.ok true ""
  setCluster := CmdResult.ok true ""
  clusterInfo := CmdResult.ok true ""
  clusterInfoCtx := CmdResult.ok true ""
  helmRepoAdd := CmdResult.ok true ""
  helmRepoUpdate := CmdResult.ok true ""
  helmInstall := CmdResult.ok true ""
  checks := fun _ => CmdResult.ok true ""

/-- C2 counterexample: `install_argocd` is a call site whose internal
readiness wait times out, yet the surrounding function still reports
success (`Ok(())`), so exhaustion of the attempt budget does not escalate
to failure at every call site. -/
theorem c2_counterexample_install_argocd_succeeds_after_timeout :
    (argocd_wait argoEnvTimeout.checks).result = PollResult.timedOut ∧
    install_argocd argoEnvTimeout = Except.ok () := by
  constructor
  · decide
  · rfl

/-- C2 as amended: exhaustion of a readiness wait escalates at the
cluster-setup call site (`main` exits non-zero) and at the CRD wait
(`deploy_argocd_apps` returns an error), but `install_argocd` and
`deploy_sample_apps` absorb their waits' timeout and report success. -/
theorem c2_amended_timeout_escalation_per_site
    (checks₁ checks₂ : Nat → CmdResult) (exportKc confirm : CmdResult)
    (helmRes : Except Unit Unit) (e : StackEnv) (eA : ArgoEnv) (eS : SampleEnv)
    (h1 : ∀ i, readyStep nodesReady (checks₁ i) = false)
    (h2 : ∀ i, checks₂ i = CmdResult.spawnErr)
    (hex : exportKc ≠ CmdResult.spawnErr)
    (hns : e.nsCreate ≠ CmdResult.spawnErr)
    (hku : ∃ s, e.kustomize = CmdResult.ok true s)
    (hcrd : e.crdChecks = checks₂)
    (hctx : ensure_kind_context eA.kindGet eA.exportKc eA.setCluster
      eA.clusterInfo eA.clusterInfoCtx = Except.ok ())
    (hh1 : ∃ s, eA.helmRepoAdd = CmdResult.ok true s)
    (hh2 : ∃ s, eA.helmRepoUpdate = CmdResult.ok true s)
    (hh3 : ∃ s, eA.helmInstall = CmdResult.ok true s)
    (_hAt : (argocd_wait eA.checks).result = PollResult.timedOut)
    (hsns : eS.nsCreate ≠ CmdResult.spawnErr)
    (hsap : ∃ s, eS.applyApps = CmdResult.ok true s)
    (_hSt : (sample_apps_wait eS.checks).result = PollResult.timedOut) :
    setup_main_exit_code (setup_finish
      (verify_cluster_setup exportKc confirm checks₁) helmRes) = 1 ∧
    deploy_argocd_apps e = Except.error () ∧
    install_argocd eA = Except.ok () ∧
    deploy_sample_apps eS = Except.ok () := by
  obtain ⟨-, -, hv, hd⟩ :=
    c1_timeout_performs_exactly_n_invocations 1 checks₁ checks₂ exportKc confirm
      e (by omega) h1 h2 hex hns hku hcrd
  refine ⟨by rw [hv]; rfl, hd, ?_, ?_⟩
  · obtain ⟨s1, hs1⟩ := hh1
    obtain ⟨s2, hs2⟩ := hh2
    obtain ⟨s3, hs3⟩ := hh3
    unfold install_argocd
    rw [hctx]
    simp [run_command, hs1, hs2, hs3]
  · obtain ⟨s4, hs4⟩ := hsap
    unfold deploy_sample_apps
    cases hnc : eS.nsCreate with
    | spawnErr => exact absurd hnc hsns
    | ok b t => simp [run_command, hs4]

/-- Witness for the amended C2 at concrete environments: node checks that
stay empty, CRD checks that never spawn, and timing-out pod waits inside
`install_argocd` and `deploy_sample_apps`. -/
theorem c2_amended_timeout_escalation_per_site_witness :
    setup_main_exit_code (setup_finish
      (verify_cluster_setup (CmdResult.ok true "") (CmdResult.ok true "")
        (fun _ => CmdResult.ok true "")) (Except.ok ())) = 1 ∧
    deploy_argocd_apps
      ⟨CmdResult.ok true "", CmdResult.ok true "", fun _ => CmdResult.spawnErr⟩ =
      Except.error () ∧
    install_argocd argoEnvTimeout = Except.ok () ∧
    deploy_sample_apps
      ⟨CmdResult.ok true "", CmdResult.ok true "", fun _ => CmdResult.ok true ""⟩ =
      Except.ok () :=
  c2_amended_timeout_escalation_per_site
    (fun _ => CmdResult.ok true "") (fun _ => CmdResult.spawnErr)
    (CmdResult.ok true "") (CmdResult.ok true "") (Except.ok ())
    ⟨CmdResult.ok true "", CmdResult.ok true "", fun _ => CmdResult.spawnErr⟩
    argoEnvTimeout
    ⟨CmdResult.ok true "", CmdResult.ok true "", fun _ => CmdResult.ok true ""⟩
    (fun i => (by decide : readyStep nodesReady (CmdResult.ok true "") = false))
    (fun i => rfl)
    (by simp) (by simp) ⟨"", rfl⟩ rfl
    rfl ⟨"", rfl⟩ ⟨"", rfl⟩ ⟨"", rfl⟩
    (by decide)
    (by simp) ⟨"", rfl⟩
    (by decide)

/-- C3 counterexample: the node wait of `verify_cluster_setup` (budget 30)
times out on a never-ready check having slept 30 times — once after every
attempt, including the final one — not 29 = N - 1 times. -/
theorem c3_counterexample_verify_wait_sleeps_n_times :
    (verify_cluster_wait (fun _ => CmdResult.ok true "")).result =
      PollResult.timedOut ∧
    (verify_cluster_wait (fun _ => CmdResult.ok true "")).sleeps = 30 ∧
    ¬(verify_cluster_wait (fun _ => CmdResult.ok true "")).sleeps = 30 - 1 := by
  refine ⟨by decide, by decide, by decide⟩

/-- C3 as amended: on timeout with budget N, the CRD wait sleeps N - 1
times (no sleep after the final attempt), while the loops of
`verify_cluster_setup`, `install_argocd` and `deploy_sample_apps` sleep
after every attempt including the final one, N times in total. -/
theorem c3_amended_sleep_counts (N : Nat) (p : String → Bool)
    (checks₁ checks₂ : Nat → CmdResult) (hN : 0 < N)
    (h1 : ∀ i, readyStep p (checks₁ i) = false)
    (h2 : ∀ i, checks₂ i = CmdResult.spawnErr) :
    (crdWaitLoop checks₂ 0 N).result = PollResult.timedOut ∧
    (crdWaitLoop checks₂ 0 N).sleeps = N - 1 ∧
    (retryWaitLoop p checks₁ 0 N).result = PollResult.timedOut ∧
    (retryWaitLoop p checks₁ 0 N).sleeps = N := by
  have ha := retryWaitLoop_never_ready p checks₁ h1 N 0
  have hb := crdWaitLoop_all_spawnErr checks₂ h2 N 0 hN
  rw [ha, hb]
  exact ⟨rfl, rfl, rfl, rfl⟩

/-- Witness for the amended C3 at budget 2. -/
theorem c3_amended_sleep_counts_witness :
    (crdWaitLoop (fun _ => CmdResult.spawnErr) 0 2).result =
      PollResult.timedOut ∧
    (crdWaitLoop (fun _ => CmdResult.spawnErr) 0 2).sleeps = 2 - 1 ∧
    (retryWaitLoop nodesReady (fun _ => CmdResult.ok true "") 0 2).result =
      PollResult.timedOut ∧
    (retryWaitLoop nodesReady (fun _ => CmdResult.ok true "") 0 2).sleeps = 2 :=
  c3_amended_sleep_counts 2 nodesReady
    (fun _ => CmdResult.ok true "") (fun _ => CmdResult.spawnErr)
    (by decide)
    (fun i => (by decide : readyStep nodesReady (CmdResult.ok true "") = false))
    (fun i => rfl)

/-- C4 counterexample: with a check operation that cannot be spawned at all
from the very first invocation, the node wait of `verify_cluster_setup`
still performs all 30 invocations, and the CRD wait all 60 — not 1 — so
neither returns a fatal outcome immediately. -/
theorem c4_counterexample_spawn_failure_is_retried :
    (verify_cluster_wait (fun _ => CmdResult.spawnErr)).invocations = 30 ∧
    ¬(verify_cluster_wait (fun _ => CmdResult.spawnErr)).invocations = 1 ∧
    (crd_wait (fun _ => CmdResult.spawnErr)).invocations = 60 ∧
    ¬(crd_wait (fun _ => CmdResult.spawnErr)).invocations = 1 := by
  refine ⟨by decide, by decide, by decide, by decide⟩

/-- C4 as amended: a non-recoverable check error (spawn failure) on the
first invocation is absorbed and retried like "not ready yet" — with a
budget of at least 2 a second invocation is performed — and when every
invocation fails to spawn, the waits end in the timed-out outcome after
exhausting the budget; no fatal outcome is returned early. -/
lemma retryWaitLoop_spawnErr_step (p : String → Bool)
    (checks : Nat → CmdResult) (a fuel : Nat)
    (h : checks a = CmdResult.spawnErr) :
    retryWaitLoop p checks a (fuel + 1) =
      ⟨(retryWaitLoop p checks (a + 1) fuel).result,
       (retryWaitLoop p checks (a + 1) fuel).invocations + 1,
       (retryWaitLoop p checks (a + 1) fuel).sleeps + 1⟩ := by
  conv_lhs => rw [retryWaitLoop, h]

theorem c4_amended_first_spawn_failure_retried (N : Nat) (p : String → Bool)
    (checks checksA : Nat → CmdResult) (hN : 2 ≤ N)
    (h0 : checks 0 = CmdResult.spawnErr)
    (hA : ∀ i, checksA i = CmdResult.spawnErr) :
    2 ≤ (retryWaitLoop p checks 0 N).invocations ∧
    2 ≤ (crdWaitLoop checks 0 N).invocations ∧
    (retryWaitLoop p checksA 0 N).result = PollResult.timedOut ∧
    (crdWaitLoop checksA 0 N).result = PollResult.timedOut := by
  obtain ⟨f, rfl⟩ : ∃ f, N = f + 2 := ⟨N - 2, by omega⟩
  refine ⟨?_, ?_, ?_, ?_⟩
  · have h1 := retryWaitLoop_one_le p checks (0 + 1) (f + 1) (by omega)
    rw [retryWaitLoop_spawnErr_step p checks 0 (f + 1) h0]
    show 2 ≤ (retryWaitLoop p checks (0 + 1) (f + 1)).invocations + 1
    omega
  · have h1 := crdWaitLoop_one_le checks 1 (f + 1) (by omega)
    simp [crdWaitLoop, h0]
    omega
  · rw [retryWaitLoop_never_ready p checksA (fun i => by rw [hA i]; rfl) (f + 2) 0]
  · rw [crdWaitLoop_all_spawnErr checksA hA (f + 2) 0 (by omega)]

/-- Witness for the amended C4 at budget 2 with checks that never spawn. -/
theorem c4_amended_first_spawn_failure_retried_witness :
    2 ≤ (retryWaitLoop nodesReady (fun _ => CmdResult.spawnErr) 0 2).invocations ∧
    2 ≤ (crdWaitLoop (fun _ => CmdResult.spawnErr) 0 2).invocations ∧
    (retryWaitLoop nodesReady (fun _ => CmdResult.spawnErr) 0 2).result =
      PollResult.timedOut ∧
    (crdWaitLoop (fun _ => CmdResult.spawnErr) 0 2).result =
      PollResult.timedOut :=
  c4_amended_first_spawn_failure_retried 2 nodesReady
    (fun _ => CmdResult.spawnErr) (fun _ => CmdResult.spawnErr)
    (by decide) rfl (fun i => rfl)

/-- An environment for `deploy_argocd_apps` whose preparatory commands
succeed but whose CRD check spawns and exits with a non-zero status every
time (the CRD is not installed). -/
def stackEnvCrdNotFound : StackEnv where
  nsCreate := CmdResult.ok true ""
  kustomize := CmdResult.ok true ""
  crdChecks := fun _ => CmdResult.ok false "Error from server (NotFound)"

/-- C5: code bug in the CRD wait of `deploy_argocd_apps`.  The check runs
with `check = false`, so a non-zero exit of `kubectl get crd ...` still
comes back as `Ok`, and the loop breaks on the very first invocation
declaring the CRD available and the function returns success — instead of
treating the failed check as "not ready yet" and retrying as the spec (and
the loop's own timeout handling and messages) intend.  By contrast the
node wait of `verify_cluster_setup` does absorb such failed checks and
retries to exhaustion. -/
theorem c5_code_bug_failed_check_breaks_crd_wait_as_ready :
    crd_wait stackEnvCrdNotFound.crdChecks = ⟨PollResult.ready, 1, 0⟩ ∧
    deploy_argocd_apps stackEnvCrdNotFound = Except.ok () ∧
    (verify_cluster_wait (fun _ => CmdResult.ok false "err")).result =
      PollResult.timedOut := by
  refine ⟨rfl, rfl, by decide⟩

/-- C6: for every sequence of check results, the attempt counter never
exceeds the budget — each wait performs at most `max_attempts` check
invocations — and the loop terminates the instant the readiness predicate
holds: a ready first check ends the wait at once with a single invocation
and no sleep. -/
theorem c6_attempt_bound_and_immediate_termination
    (p : String → Bool) (checks checksB : Nat → CmdResult) (a N : Nat)
    (b : Bool) (s : String) (hN : 0 < N)
    (hc : checks a = CmdResult.ok b s) (hp : p s = true) :
    (retryWaitLoop p checksB a N).invocations ≤ N ∧
    (crdWaitLoop checksB a N).invocations ≤ N ∧
    (traefikWaitLoop checksB a N).invocations ≤ N ∧
    retryWaitLoop p checks a N = ⟨PollResult.ready, 1, 0⟩ := by
  refine ⟨retryWaitLoop_invocations_le p checksB N a,
    crdWaitLoop_invocations_le checksB N a,
    traefikWaitLoop_invocations_le checksB N a, ?_⟩
  have h2 : readyStep p (checks (a + 0)) = true := by
    rw [Nat.add_zero, hc]
    simp [readyStep, hp]
  have h := retryWaitLoop_first_ready p checks 0 a N hN
    (fun i hi => absurd hi (Nat.not_lt_zero i)) h2
  simpa using h

/-- Witness for C6 at budget 1 with three Ready nodes reported at once. -/
theorem c6_attempt_bound_and_immediate_termination_witness :
    (retryWaitLoop nodesReady (fun _ => CmdResult.spawnErr) 0 1).invocations ≤ 1 ∧
    (crdWaitLoop (fun _ => CmdResult.spawnErr) 0 1).invocations ≤ 1 ∧
    (traefikWaitLoop (fun _ => CmdResult.spawnErr) 0 1).invocations ≤ 1 ∧
    retryWaitLoop nodesReady
      (fun _ => CmdResult.ok true "n1 Ready\nn2 Ready\nn3 Ready") 0 1 =
      ⟨PollResult.ready, 1, 0⟩ :=
  c6_attempt_bound_and_immediate_termination nodesReady
    (fun _ => CmdResult.ok true "n1 Ready\nn2 Ready\nn3 Ready")
    (fun _ => CmdResult.spawnErr) 0 1 true "n1 Ready\nn2 Ready\nn3 Ready"
    (by decide) rfl (by decide)

/-- C7: if the check first satisfies the readiness condition on invocation
k (1-indexed) with k within the budget N, the wait returns ready after
exactly k invocations and k - 1 sleeps, performing no further invocations
and no further sleeps — both for the predicate-based loops and for the CRD
wait. -/
theorem c7_ready_at_invocation_k (N k : Nat) (p : String → Bool)
    (checks₁ checks₂ : Nat → CmdResult)
    (hk : 0 < k) (hkN : k ≤ N)
    (h1 : ∀ i, i < k - 1 → readyStep p (checks₁ i) = false)
    (h2 : readyStep p (checks₁ (k - 1)) = true)
    (g1 : ∀ i, i < k - 1 → checks₂ i = CmdResult.spawnErr)
    (g2 : ∃ b s, checks₂ (k - 1) = CmdResult.ok b s) :
    retryWaitLoop p checks₁ 0 N = ⟨PollResult.ready, k, k - 1⟩ ∧
    crdWaitLoop checks₂ 0 N = ⟨PollResult.ready, k, k - 1⟩ := by
  obtain ⟨m, rfl⟩ : ∃ m, k = m + 1 := ⟨k - 1, by omega⟩
  have hm : m + 1 - 1 = m := by omega
  rw [hm] at h1 h2 g1 g2 ⊢
  constructor
  · apply retryWaitLoop_first_ready p checks₁ m 0 N (by omega)
    · intro i hi
      simpa using h1 i hi
    · simpa using h2
  · apply crdWaitLoop_first_ok checks₂ m 0 N (by omega)
    · intro i hi
      simpa using g1 i hi
    · obtain ⟨b, s, hb⟩ := g2
      exact ⟨b, s, by simpa using hb⟩

/-- Witness for C7: readiness first holds on invocation 2 of 3. -/
theorem c7_ready_at_invocation_k_witness :
    retryWaitLoop nodesReady
      (fun i => if i = 0 then CmdResult.ok true ""
        else CmdResult.ok true "n1 Ready\nn2 Ready\nn3 Ready") 0 3 =
      ⟨PollResult.ready, 2, 2 - 1⟩ ∧
    crdWaitLoop
      (fun i => if i = 0 then CmdResult.spawnErr else CmdResult.ok true "") 0 3 =
      ⟨PollResult.ready, 2, 2 - 1⟩ :=
  c7_ready_at_invocation_k 3 2 nodesReady
    (fun i => if i = 0 then CmdResult.ok true ""
      else CmdResult.ok true "n1 Ready\nn2 Ready\nn3 Ready")
    (fun i => if i = 0 then CmdResult.spawnErr else CmdResult.ok true "")
    (by decide) (by decide)
    (fun i hi => by
      have h0 : i = 0 := by omega
      subst h0
      decide)
    (by decide)
    (fun i hi => by
      have h0 : i = 0 := by omega
      subst h0
      rfl)
    ⟨true, "", rfl⟩

/-- C8: `run_command` invoked with `check = false` returns Ok even when the
external command exits with non-zero status, and returns an error exactly
when the command could not be spawned at all — so with `check = false` a
non-zero exit is indistinguishable from success at the Result level and
must be read from the captured status field. -/
theorem c8_run_command_no_check_masks_exit_status
    (b : Bool) (s : String) (r : CmdResult) :
    run_command (CmdResult.ok b s) false = Except.ok (b, s) ∧
    run_command CmdResult.spawnErr false = Except.error () ∧
    (run_command r false = Except.error () ↔ r = CmdResult.spawnErr) := by
  refine ⟨rfl, rfl, ?_⟩
  cases r with
  | ok b' s' => simp [run_command]
  | spawnErr => simp [run_command]

/-- C9: a check output that is empty or whitespace-only never satisfies a
readiness predicate: trimming and splitting it on newlines yields exactly
one (empty) line — never zero — the count of lines containing "Running" or
"Ready" is 0, and the all-pods-Running, three-Ready-nodes and five-ArgoCD-
pods conditions all evaluate to false. -/
theorem c9_whitespace_output_never_ready (s : String)
    (h : ∀ c ∈ s.toList, isWhitespaceCh c = true) :
    (outputLines s).length = 1 ∧
    ((outputLines s).filter (fun l => containsSub l "Running".toList)).length = 0 ∧
    ((outputLines s).filter (fun l => containsSub l "Ready".toList)).length = 0 ∧
    samplePodsReady s = false ∧
    nodesReady s = false ∧
    argocdPodsReady s = false := by
  have ht : trimChars s.toList = [] := trimChars_eq_nil _ h
  have hlines : outputLines s = [[]] := by
    unfold outputLines
    rw [ht]
    rfl
  refine ⟨by rw [hlines]; rfl, ?_, ?_, ?_, ?_, ?_⟩
  · rw [hlines]
    decide
  · rw [hlines]
    decide
  · unfold samplePodsReady
    rw [hlines]
    decide
  · unfold nodesReady
    rw [hlines]
    decide
  · unfold argocdPodsReady
    rw [hlines]
    decide

/-- Witness for C9 at the whitespace-only output " \n\t ". -/
theorem c9_whitespace_output_never_ready_witness :
    (outputLines " \n\t ").length = 1 ∧
    ((outputLines " \n\t ").filter
      (fun l => containsSub l "Running".toList)).length = 0 ∧
    ((outputLines " \n\t ").filter
      (fun l => containsSub l "Ready".toList)).length = 0 ∧
    samplePodsReady " \n\t " = false ∧
    nodesReady " \n\t " = false ∧
    argocdPodsReady " \n\t " = false :=
  c9_whitespace_output_never_ready " \n\t " (by decide)

/-- C10: the cleanup workflow performs no destructive operation — no
external command at all and no local file removal — unless the stdin
confirmation, trimmed and lowercased, equals exactly "y"; for every other
input it returns success with everything untouched. -/
theorem c10_cleanup_requires_explicit_confirmation
    (clusterName ns input : String) (fs : FsState) (ok : FsRemoveOk)
    (h : cleanupConfirmed input = false) :
    cleanup_run clusterName ns input fs ok = ([], [], Except.ok ()) := by
  simp [cleanup_run, h]

/-- Witness for C10: the default cluster and namespace with the answer
"N" (as read from stdin, newline included) leave everything untouched. -/
theorem c10_cleanup_requires_explicit_confirmation_witness :
    cleanup_run "observability-cluster" "observability" "N\n"
      ⟨true, true, true⟩ ⟨true, true, true⟩ = ([], [], Except.ok ()) :=
  c10_cleanup_requires_explicit_confirmation "observability-cluster"
    "observability" "N\n" ⟨true, true, true⟩ ⟨true, true, true⟩ (by decide)
